import Mathlib

/-!
Verification of the Piczak CNN model wrapper
(`EndToEndClassification/EnvClassification/Models/PiczakCNN.py`).

The file shallowly embeds the three pieces of the source:

* the static shape computation that the framework performs when
  `build_predict_op` constructs the forward graph (convolutions and
  poolings with VALID padding, the transpose/reshape stage);
* the value-level forward pipeline (tensors are index functions over an
  ordered field, the framework's float arithmetic modelled exactly);
* the loss wrapper `get_loss_op` and the checkpoint wrappers
  `save` / `load_piczak` (variable collection by name-scope filtering).
-/

namespace PiczakCNN

/-- Static output size of a VALID 2-D convolution along one spatial axis,
as the framework computes it at graph-construction time: kernel `k`,
stride 1, output `i - k + 1`, which must be positive or construction
fails with a shape-mismatch error. -/
def conv2dValidShape (i k : Nat) : Except String Nat :=
  if k ≤ i then Except.ok (i - k + 1) else Except.error "shape-mismatch"

/-- Static output size of a VALID pooling along one spatial axis: window
`k`, stride `s`, output `(i - k) / s + 1`, which requires `k ≤ i` or
graph construction fails with a shape-mismatch error. -/
def poolValidShape (i k s : Nat) : Except String Nat :=
  if k ≤ i then Except.ok ((i - k) / s + 1) else Except.error "shape-mismatch"

/-- The static spatial shapes produced by each stage of
`Piczak.build_predict_op`, for an input of shape (N, F, T, 1). -/
structure PredictShapes where
  conv1 : Nat × Nat
  pool1 : Nat × Nat
  conv2 : Nat × Nat
  pool2 : Nat × Nat
  flatFeatures : Nat
  output : Nat × Nat
deriving DecidableEq, Repr

/-- Graph-construction-time shape inference for `Piczak.build_predict_op`
on an input tensor of static shape (N, F, T, 1), following the source
line by line: conv `cnn_1` kernel (57, 6) stride (1, 1) VALID; max-pool
window (4, 3) stride (1, 3) VALID; conv `cnn_2` kernel (1, 3) stride
(1, 1) VALID; max-pool window (1, 3) stride (1, 3) VALID; transpose
[0, 2, 1, 3]; reshape to (N, w, h*80); reshape to (N, w*(h*80)); dense
layers 5000, 5000, `numClasses`. ReLU and dropout do not change shapes. -/
def build_predict_op_shapes (N F T numClasses : Nat) : Except String PredictShapes := do
  let h1 ← conv2dValidShape F 57
  let w1 ← conv2dValidShape T 6
  let h2 ← poolValidShape h1 4 1
  let w2 ← poolValidShape w1 3 3
  let h3 ← conv2dValidShape h2 1
  let w3 ← conv2dValidShape w2 3
  let h4 ← poolValidShape h3 1 1
  let w4 ← poolValidShape w3 3 3
  let feats := w4 * (h4 * 80)
  Except.ok ⟨(h1, w1), (h2, w2), (h3, w3), (h4, w4), feats, (N, numClasses)⟩

/-! ### Value-level tensors

The framework's dense NHWC tensors, modelled as a shape together with an
index function into an ordered field `α` (the exact model of the
framework's float arithmetic). Reads outside the shape are irrelevant:
every operation below only reads in-bounds indices of its argument. -/

/-- A rank-4 tensor of shape (n, h, w, c). -/
structure Tensor4 (α : Type) where
  n : Nat
  h : Nat
  w : Nat
  c : Nat
  data : Nat → Nat → Nat → Nat → α

/-- A rank-3 tensor of shape (n, d1, d2). -/
structure Tensor3 (α : Type) where
  n : Nat
  d1 : Nat
  d2 : Nat
  data : Nat → Nat → Nat → α

/-- A rank-2 tensor of shape (n, d). -/
structure Tensor2 (α : Type) where
  n : Nat
  d : Nat
  data : Nat → Nat → α

variable {α : Type} [LinearOrderedField α]

/-- `slim.convolution` with VALID padding and stride (1, 1): `outC`
output channels, kernel (kh, kw), weights indexed (dh, dw, inChannel,
outChannel), one bias per output channel, no activation fused in. -/
def convolutionValid (t : Tensor4 α) (outC kh kw : Nat)
    (weight : Nat → Nat → Nat → Nat → α) (bias : Nat → α) : Tensor4 α :=
  ⟨t.n, t.h - kh + 1, t.w - kw + 1, outC, fun b i j o =>
    (∑ dh ∈ Finset.range kh, ∑ dw ∈ Finset.range kw, ∑ ci ∈ Finset.range t.c,
      weight dh dw ci o * t.data b (i + dh) (j + dw) ci) + bias o⟩

/-- `tf.nn.relu` on a rank-4 tensor: elementwise max with 0. -/
def relu4 (t : Tensor4 α) : Tensor4 α :=
  ⟨t.n, t.h, t.w, t.c, fun b i j k => max (t.data b i j k) 0⟩

/-- `tf.nn.relu` on a rank-2 tensor: elementwise max with 0. -/
def relu2 (t : Tensor2 α) : Tensor2 α :=
  ⟨t.n, t.d, fun b i => max (t.data b i) 0⟩

/-- `slim.dropout` on a rank-4 tensor. When `isTraining` is true each
element is either scaled by `1 / keepProb` or zeroed according to the
random Bernoulli `mask` drawn by the framework; when `isTraining` is
false the layer returns its input unchanged. -/
def dropout4 (keepProb : α) (isTraining : Bool)
    (mask : Nat → Nat → Nat → Nat → Bool) (t : Tensor4 α) : Tensor4 α :=
  if isTraining then
    ⟨t.n, t.h, t.w, t.c, fun b i j k =>
      if mask b i j k then t.data b i j k / keepProb else 0⟩
  else t

/-- `slim.dropout` on a rank-2 tensor; same semantics as `dropout4`. -/
def dropout2 (keepProb : α) (isTraining : Bool)
    (mask : Nat → Nat → Bool) (t : Tensor2 α) : Tensor2 α :=
  if isTraining then
    ⟨t.n, t.d, fun b i => if mask b i then t.data b i / keepProb else 0⟩
  else t

/-- `slim.pool` with MAX mode and VALID padding: window (kh, kw),
stride (sh, sw); each output element is the maximum of its window. -/
def poolMaxValid (t : Tensor4 α) (kh kw sh sw : Nat) : Tensor4 α :=
  ⟨t.n, (t.h - kh) / sh + 1, (t.w - kw) / sw + 1, t.c, fun b i j k =>
    (((List.range kh).map fun dh => (List.range kw).map fun dw =>
        t.data b (i * sh + dh) (j * sw + dw) k).flatten).foldl max
      (t.data b (i * sh) (j * sw) k)⟩

/-- `tf.transpose` with permutation [0, 2, 1, 3]: swaps the two spatial
axes, (n, h, w, c) becomes (n, w, h, c). -/
def transpose0213 (t : Tensor4 α) : Tensor4 α :=
  ⟨t.n, t.w, t.h, t.c, fun b i j k => t.data b j i k⟩

/-- The first `tf.reshape` of the source, to `[-1, sh[1], sh[2]*sh[3]]`:
merges the two trailing axes in row-major order, (n, h, w, c) becomes
(n, h, w*c). -/
def reshapeMergeLast (t : Tensor4 α) : Tensor3 α :=
  ⟨t.n, t.h, t.w * t.c, fun b i p => t.data b i (p / t.c) (p % t.c)⟩

/-- The second `tf.reshape` of the source, to `[-1, sh[1]*sh[2]]`:
flattens the two trailing axes in row-major order, (n, d1, d2) becomes
(n, d1*d2). -/
def reshapeFlatten (t : Tensor3 α) : Tensor2 α :=
  ⟨t.n, t.d1 * t.d2, fun b p => t.data b (p / t.d2) (p % t.d2)⟩

/-- `slim.fully_connected` with no activation: weights indexed
(inFeature, outFeature), one bias per output feature. -/
def fully_connected (t : Tensor2 α) (outD : Nat)
    (weight : Nat → Nat → α) (bias : Nat → α) : Tensor2 α :=
  ⟨t.n, outD, fun b o =>
    (∑ i ∈ Finset.range t.d, t.data b i * weight i o) + bias o⟩

/-- The layer parameters created by `build_predict_op` under the
variable scope `piczak`: a weight/bias pair for each of the layers
`cnn_1`, `cnn_2`, `dense_1`, `dense_2`, `output`. -/
structure Params (α : Type) where
  cnn1W : Nat → Nat → Nat → Nat → α
  cnn1b : Nat → α
  cnn2W : Nat → Nat → Nat → Nat → α
  cnn2b : Nat → α
  dense1W : Nat → Nat → α
  dense1b : Nat → α
  dense2W : Nat → Nat → α
  dense2b : Nat → α
  outputW : Nat → Nat → α
  outputb : Nat → α

/-- The Bernoulli masks the framework draws for the three dropout
layers of the pipeline (after conv block 1, dense block 1, dense
block 2); they are the pipeline's only source of randomness. -/
structure Masks where
  cnn1 : Nat → Nat → Nat → Nat → Bool
  dense1 : Nat → Nat → Bool
  dense2 : Nat → Nat → Bool

/-- Value-level `Piczak.build_predict_op`, following the source line by
line: conv `cnn_1` (80 channels, kernel (57, 6)); ReLU; dropout 0.5;
max-pool (4, 3) stride (1, 3); conv `cnn_2` (80 channels, kernel
(1, 3)); ReLU; max-pool (1, 3) stride (1, 3); transpose [0, 2, 1, 3];
the two reshapes; dense 5000; ReLU; dropout 0.5; dense 5000; ReLU;
dropout 0.5; linear output layer of width `numClasses`. -/
def build_predict_op (numClasses : Nat) (p : Params α) (m : Masks)
    (input : Tensor4 α) (isTraining : Bool) : Tensor2 α :=
  let x := convolutionValid input 80 57 6 p.cnn1W p.cnn1b
  let x := relu4 x
  let x := dropout4 (1 / 2) isTraining m.cnn1 x
  let x := poolMaxValid x 4 3 1 3
  let x := convolutionValid x 80 1 3 p.cnn2W p.cnn2b
  let x := relu4 x
  let x := poolMaxValid x 1 3 1 3
  let x := transpose0213 x
  let x3 := reshapeMergeLast x
  let x2 := reshapeFlatten x3
  let y := fully_connected x2 5000 p.dense1W p.dense1b
  let y := relu2 y
  let y := dropout2 (1 / 2) isTraining m.dense1 y
  let y := fully_connected y 5000 p.dense2W p.dense2b
  let y := relu2 y
  let y := dropout2 (1 / 2) isTraining m.dense2 y
  fully_connected y numClasses p.outputW p.outputb

/-! ### The model class, the loss wrapper, and the checkpoint wrappers -/

/-- The `Piczak` model class: a model name, the number of classes
(default 50 in the source constructor), the weight/bias initializers and
the weight/bias regularizers, stored as opaque configuration values of
types `I` and `R`. `build_predict_op` and `get_loss_op` are defined on
it below. -/
structure Piczak (I R : Type) where
  model_name : String
  num_classes : Nat
  W_init : I
  b_init : I
  W_reg : Option R
  b_reg : Option R

/-- `tf.nn.sparse_softmax_cross_entropy_with_logits`: for each batch
element with integer label `lab` and logits row `row` of length C, the
per-example loss `log (∑ j < C, exp row[j]) - row[lab]`, which equals
`-log (softmax row)[lab]`. The framework's transcendental primitives
are passed in as `expf` and `logf` (instantiated with `Real.exp` and
`Real.log` in the theorems). Out-of-range indices read the default 0:
the framework leaves out-of-range labels as an unchecked precondition. -/
def sparse_softmax_cross_entropy_with_logits (expf logf : α → α)
    (labels : List Nat) (logits : List (List α)) : List α :=
  List.zipWith (fun lab row =>
      logf (∑ j ∈ Finset.range row.length, expf (row.getD j 0)) - row.getD lab 0)
    labels logits

/-- `tf.reduce_mean` on a rank-1 tensor: sum divided by length. -/
def reduce_mean (xs : List α) : α := xs.sum / (xs.length : α)

/-- `Piczak.get_loss_op`, following the source line by line: the sparse
softmax cross-entropy of the prediction against the integer labels,
reduced by `tf.reduce_mean` over the batch. The source method reads no
attribute of `self`. -/
def Piczak.get_loss_op {I R : Type} (_self : Piczak I R) (expf logf : α → α)
    (prediction : List (List α)) (label_tensor : List Nat) : α :=
  let loss := sparse_softmax_cross_entropy_with_logits expf logf label_tensor prediction
  reduce_mean loss

/-- The graph-construction-time shape check the framework performs for
`get_loss_op`: the batch dimension of the logits must equal the batch
dimension of the labels, else a shape-mismatch error is raised. Label
values are unknown at construction time and are not validated. -/
def Piczak.get_loss_op_checked {I R : Type} (self : Piczak I R) (expf logf : α → α)
    (prediction : List (List α)) (label_tensor : List Nat) : Except String α :=
  if prediction.length = label_tensor.length then
    Except.ok (self.get_loss_op expf logf prediction label_tensor)
  else Except.error "shape-mismatch"

/-- The names of the global variables `build_predict_op` creates: it
opens `tf.variable_scope('piczak')` and each layer contributes a
weights/biases pair under its `scope` label. -/
def piczak_variable_names : List String :=
  ["piczak/cnn_1/weights", "piczak/cnn_1/biases",
   "piczak/cnn_2/weights", "piczak/cnn_2/biases",
   "piczak/dense_1/weights", "piczak/dense_1/biases",
   "piczak/dense_2/weights", "piczak/dense_2/biases",
   "piczak/output/weights", "piczak/output/biases"]

/-- `tf.get_collection(tf.GraphKeys.GLOBAL_VARIABLES, scope=...)`:
filters the graph's global variables to those whose name the scope
string matches at the start (the framework applies the scope as an
anchored regular-expression match on the variable name). -/
def get_collection (scope : String) (globalVariables : List String) : List String :=
  globalVariables.filter (fun v => scope.data.isPrefixOf v.data)

/-- `tf.train.Saver(var_list)`: constructing a saver over an empty
variable list raises `ValueError: No variables to save`; otherwise the
saver operates on exactly `var_list`. -/
def Saver (varList : List String) : Except String (List String) :=
  if varList.isEmpty then Except.error "No variables to save" else Except.ok varList

/-- `Piczak.save`, following the source line by line: collect the
global variables under scope `"model"`, build a `tf.train.Saver` over
them, and write those variables to `path`. Returns the list of
(path, variable-name) pairs written, or the saver's error. -/
def Piczak.save {I R : Type} (_self : Piczak I R) (path : String)
    (sessGlobalVariables : List String) : Except String (List (String × String)) :=
  let vars := get_collection "model" sessGlobalVariables
  (Saver vars).map (fun vs => vs.map (fun v => (path, v)))

/-- `Piczak.load_piczak`, following the source line by line: collect
the global variables under scope `"model"`, build a `tf.train.Saver`
over them, and restore exactly those variables from `path`. Returns
the list of variable names restored, or the saver's error. -/
def Piczak.load_piczak {I R : Type} (_self : Piczak I R) (_path : String)
    (sessGlobalVariables : List String) : Except String (List String) :=
  let vars := get_collection "model" sessGlobalVariables
  (Saver vars).map (fun vs => vs)

/-- A concrete model instance used by witnesses: the source default
`num_classes = 50` with trivial initializer/regularizer configuration. -/
def somePiczak : Piczak Unit Unit :=
  { model_name := "piczak", num_classes := 50,
    W_init := (), b_init := (), W_reg := none, b_reg := none }

/-- A concrete rank-4 tensor of shape (1, 2, 3, 2) over ℚ, used by
witnesses to evaluate the reshape stage on explicit data. -/
def sampleT4 : Tensor4 ℚ :=
  ⟨1, 2, 3, 2, fun b j i k => (b : ℚ) + 2 * j + 3 * i + 5 * k⟩

/-!  ## Theorems -/

/-- C5: with training-mode false, every dropout layer of the pipeline
(the rank-4 one after conv block 1 and the rank-2 ones after dense
blocks 1 and 2) returns its input unchanged, for every keep-probability,
every random mask, and every input tensor. -/
theorem dropout_is_identity_at_inference {α : Type} [LinearOrderedField α] :
    (∀ (keepProb : α) (mask : Nat → Nat → Nat → Nat → Bool) (t : Tensor4 α),
        dropout4 keepProb false mask t = t) ∧
    (∀ (keepProb : α) (mask : Nat → Nat → Bool) (t : Tensor2 α),
        dropout2 keepProb false mask t = t) :=
  ⟨fun _ _ _ => rfl, fun _ _ _ => rfl⟩

/-- C6: with a fixed parameter set and training-mode false the forward
pipeline is a pure deterministic function. The only stochastic inputs of
the pipeline are the dropout masks the framework draws at each
evaluation; at inference the output does not depend on them, so any two
evaluations on identical input (with masks drawn independently) produce
identical outputs. -/
theorem build_predict_op_deterministic_inference {α : Type} [LinearOrderedField α]
    (numClasses : Nat) (p : Params α) (m m' : Masks) (input : Tensor4 α) :
    build_predict_op numClasses p m input false
      = build_predict_op numClasses p m' input false := rfl

/-- C10: `get_loss_op` reads no field of the model instance: any two
`Piczak` instances (any model name, class count, initializers and
regularizers, even of different configuration types) give the same loss
on the same prediction and label tensors. -/
theorem get_loss_op_ignores_model_fields {α : Type} [LinearOrderedField α]
    {I₁ R₁ I₂ R₂ : Type} (m₁ : Piczak I₁ R₁) (m₂ : Piczak I₂ R₂)
    (expf logf : α → α) (prediction : List (List α)) (label_tensor : List Nat) :
    m₁.get_loss_op expf logf prediction label_tensor
      = m₂.get_loss_op expf logf prediction label_tensor := rfl

/-- C2 (code bug): `save` collects the global variables under scope
`"model"`, but `build_predict_op` creates all ten parameter variables
under the scope `piczak`, so the collection passed to the saver is
empty although the ten parameters exist in the graph. -/
theorem save_scope_collects_no_piczak_variables :
    get_collection "model" piczak_variable_names = []
      ∧ piczak_variable_names.length = 10 := by
  constructor <;> rfl

/-- C3 (code bug): because the scope filter collects no variables, both
`save` and `load_piczak` fail when constructing the saver (`ValueError:
No variables to save`); no checkpoint is ever written or read, so the
save-then-load round trip cannot reproduce any forward output. -/
theorem save_and_load_raise_no_variables :
    somePiczak.save "checkpoint" piczak_variable_names
        = Except.error "No variables to save"
      ∧ somePiczak.load_piczak "checkpoint" piczak_variable_names
        = Except.error "No variables to save" :=
  ⟨rfl, rfl⟩

/-- C1 (counterexample): on input (1, 60, 41, 1) the flatten stage
produces 240 features per batch element, not the 800 the claim states:
the 41-frame framing gives spatial shape (1, 3) with 80 channels after
the second pooling. -/
theorem flatten_at_60x41_is_240_not_800 :
    (build_predict_op_shapes 1 60 41 50).map PredictShapes.flatFeatures
        = Except.ok 240
      ∧ (Except.ok 240 : Except String Nat) ≠ Except.ok 800 :=
  ⟨rfl, by simp⟩

/-- C1 (amended): for every batch size N ≥ 1, the pipeline on input
(N, 60, 41, 1) with the default 50 classes builds successfully with
output shape (N, 50), and the flatten stage before dense block 1
produces exactly 240 features per batch element. -/
theorem build_predict_op_shapes_60x41 (N : Nat) (hN : 1 ≤ N) :
    build_predict_op_shapes N 60 41 50 =
      Except.ok ⟨(4, 36), (1, 12), (1, 10), (1, 3), 240, (N, 50)⟩ := rfl

/-- Witness for the amended C1 at N = 1. -/
theorem build_predict_op_shapes_60x41_witness :
    1 ≤ 1 ∧ build_predict_op_shapes 1 60 41 50 =
      Except.ok ⟨(4, 36), (1, 12), (1, 10), (1, 3), 240, (1, 50)⟩ :=
  ⟨by decide, build_predict_op_shapes_60x41 1 (by decide)⟩

/-- The 101-frame framing the source comments describe: input
(N, 60, 101, 1) gives the intermediate shape (N, 10, 1, 80) before the
dense layers and exactly 800 flatten features. -/
theorem build_predict_op_shapes_60x101 (N : Nat) :
    build_predict_op_shapes N 60 101 50 =
      Except.ok ⟨(4, 96), (1, 32), (1, 30), (1, 10), 800, (N, 50)⟩ := rfl

/-- C9: whenever the input spatial dimensions (F, T) are smaller than
the first convolution kernel (57, 6) in either coordinate, graph
construction fails with a shape-mismatch error: the first VALID
convolution cannot produce a positive output size. -/
theorem build_predict_op_shapes_small_input_fails (N F T numClasses : Nat)
    (h : F < 57 ∨ T < 6) :
    build_predict_op_shapes N F T numClasses = Except.error "shape-mismatch" := by
  rcases h with h | h
  · have hF : ¬ 57 ≤ F := by omega
    simp [build_predict_op_shapes, conv2dValidShape, hF, Bind.bind, Except.bind]
  · have hT : ¬ 6 ≤ T := by omega
    by_cases hF : 57 ≤ F
    · simp [build_predict_op_shapes, conv2dValidShape, hF, hT, Bind.bind, Except.bind]
    · simp [build_predict_op_shapes, conv2dValidShape, hF, Bind.bind, Except.bind]

/-- Witness for C9 at the boundary input (1, 56, 41, 1). -/
theorem build_predict_op_shapes_small_input_fails_witness :
    (56 < 57 ∨ 41 < 6)
      ∧ build_predict_op_shapes 1 56 41 50 = Except.error "shape-mismatch" :=
  ⟨Or.inl (by decide),
   build_predict_op_shapes_small_input_fails 1 56 41 50 (Or.inl (by decide))⟩

/-- C8 (counterexample): a label outside [0, C) does not make the loss
evaluator fail with a shape-mismatch error: with one logits row of
length 2 and the out-of-range label 5, construction succeeds, because
label values are not validated. -/
theorem loss_check_accepts_out_of_range_label :
    somePiczak.get_loss_op_checked (α := ℚ) id id [[0, 0]] [5]
      ≠ Except.error "shape-mismatch" := by
  simp [Piczak.get_loss_op_checked]

/-- C8 (amended): the loss evaluator fails with a shape-mismatch error
exactly when the batch dimension of the logits differs from that of the
labels; label values are not validated, so out-of-range labels raise no
shape-mismatch error. -/
theorem get_loss_op_checked_shape_law {α : Type} [LinearOrderedField α]
    {I R : Type} (m : Piczak I R) (expf logf : α → α)
    (prediction : List (List α)) (label_tensor : List Nat) :
    m.get_loss_op_checked expf logf prediction label_tensor
        = Except.error "shape-mismatch"
      ↔ prediction.length ≠ label_tensor.length := by
  unfold Piczak.get_loss_op_checked
  split
  · next h => simp [h]
  · next h => simp [h]

/-- C4: the reshape stage. The transpose swaps the two spatial axes,
(N, H, W, C) to (N, W, H, C); the first reshape merges the trailing
height and channel axes, giving (N, W, H*C); the second flattens to
(N, W*H*C). The stage applies no learned parameters: every output
element is literally an input element, at the row-major index stated. -/
theorem reshape_stage_spec {α : Type} [LinearOrderedField α] (t : Tensor4 α)
    (b i j k : Nat) (hi : i < t.w) (hj : j < t.h) (hk : k < t.c) :
    (transpose0213 t).n = t.n ∧
    (transpose0213 t).h = t.w ∧
    (transpose0213 t).w = t.h ∧
    (transpose0213 t).c = t.c ∧
    (reshapeMergeLast (transpose0213 t)).n = t.n ∧
    (reshapeMergeLast (transpose0213 t)).d1 = t.w ∧
    (reshapeMergeLast (transpose0213 t)).d2 = t.h * t.c ∧
    (reshapeFlatten (reshapeMergeLast (transpose0213 t))).n = t.n ∧
    (reshapeFlatten (reshapeMergeLast (transpose0213 t))).d = t.w * t.h * t.c ∧
    (reshapeMergeLast (transpose0213 t)).data b i (j * t.c + k) = t.data b j i k ∧
    (reshapeFlatten (reshapeMergeLast (transpose0213 t))).data b
        (i * (t.h * t.c) + (j * t.c + k)) = t.data b j i k := by
  have hc : 0 < t.c := by omega
  have hdiv : (j * t.c + k) / t.c = j := by
    rw [Nat.mul_comm j t.c, Nat.mul_add_div hc, Nat.div_eq_of_lt hk, Nat.add_zero]
  have hmod : (j * t.c + k) % t.c = k := by
    rw [Nat.mul_comm j t.c, Nat.mul_add_mod, Nat.mod_eq_of_lt hk]
  have hrlt : j * t.c + k < t.h * t.c := by
    have h1 : (j + 1) * t.c = j * t.c + t.c := by ring
    have h2 : (j + 1) * t.c ≤ t.h * t.c := Nat.mul_le_mul_right t.c (by omega)
    omega
  have hm : 0 < t.h * t.c := Nat.mul_pos (by omega) hc
  have hdiv2 : (i * (t.h * t.c) + (j * t.c + k)) / (t.h * t.c) = i := by
    rw [Nat.mul_comm i (t.h * t.c), Nat.mul_add_div hm, Nat.div_eq_of_lt hrlt,
      Nat.add_zero]
  have hmod2 : (i * (t.h * t.c) + (j * t.c + k)) % (t.h * t.c) = j * t.c + k := by
    rw [Nat.mul_comm i (t.h * t.c), Nat.mul_add_mod, Nat.mod_eq_of_lt hrlt]
  refine ⟨rfl, rfl, rfl, rfl, rfl, rfl, rfl, rfl, (mul_assoc t.w t.h t.c).symm, ?_, ?_⟩
  · show (transpose0213 t).data b i ((j * t.c + k) / t.c) ((j * t.c + k) % t.c)
        = t.data b j i k
    rw [hdiv, hmod]
    rfl
  · show (reshapeMergeLast (transpose0213 t)).data b
        ((i * (t.h * t.c) + (j * t.c + k)) / (t.h * t.c))
        ((i * (t.h * t.c) + (j * t.c + k)) % (t.h * t.c)) = t.data b j i k
    rw [hdiv2, hmod2]
    show (transpose0213 t).data b i ((j * t.c + k) / t.c) ((j * t.c + k) % t.c)
        = t.data b j i k
    rw [hdiv, hmod]
    rfl

/-- Witness for C4 on the concrete tensor `sampleT4` of shape
(1, 2, 3, 2), at batch 0, spatial indices (j, i) = (1, 2), channel 1. -/
theorem reshape_stage_spec_witness :
    (2 < sampleT4.w ∧ 1 < sampleT4.h ∧ 1 < sampleT4.c) ∧
    ((transpose0213 sampleT4).n = sampleT4.n ∧
     (transpose0213 sampleT4).h = sampleT4.w ∧
     (transpose0213 sampleT4).w = sampleT4.h ∧
     (transpose0213 sampleT4).c = sampleT4.c ∧
     (reshapeMergeLast (transpose0213 sampleT4)).n = sampleT4.n ∧
     (reshapeMergeLast (transpose0213 sampleT4)).d1 = sampleT4.w ∧
     (reshapeMergeLast (transpose0213 sampleT4)).d2 = sampleT4.h * sampleT4.c ∧
     (reshapeFlatten (reshapeMergeLast (transpose0213 sampleT4))).n = sampleT4.n ∧
     (reshapeFlatten (reshapeMergeLast (transpose0213 sampleT4))).d
        = sampleT4.w * sampleT4.h * sampleT4.c ∧
     (reshapeMergeLast (transpose0213 sampleT4)).data 0 2 (1 * sampleT4.c + 1)
        = sampleT4.data 0 1 2 1 ∧
     (reshapeFlatten (reshapeMergeLast (transpose0213 sampleT4))).data 0
        (2 * (sampleT4.h * sampleT4.c) + (1 * sampleT4.c + 1))
        = sampleT4.data 0 1 2 1) :=
  ⟨⟨by decide, by decide, by decide⟩,
   reshape_stage_spec sampleT4 0 2 1 1 (by decide) (by decide) (by decide)⟩

/-- Reading a replicated row at an in-range index gives the repeated
element. -/
lemma getD_replicate_of_lt {α : Type} (C j : Nat) (c d : α) (h : j < C) :
    (List.replicate C c).getD j d = c := by
  rw [List.getD_eq_getElem (List.replicate C c) d (by simpa using h)]
  exact List.getElem_replicate ..

/-- On uniform logits every per-example sparse softmax cross-entropy
equals `log C`, provided each label is in range. -/
lemma sparse_ce_uniform_rows (C : Nat) (hC : 1 ≤ C) (c : ℝ) (labels : List Nat)
    (hl : ∀ l ∈ labels, l < C) :
    sparse_softmax_cross_entropy_with_logits Real.exp Real.log labels
        (List.replicate labels.length (List.replicate C c))
      = List.replicate labels.length (Real.log C) := by
  induction labels with
  | nil => rfl
  | cons a as ih =>
      have ha : a < C := hl a (List.mem_cons_self a as)
      have hsum : ∑ j ∈ Finset.range (List.replicate C c).length,
          Real.exp ((List.replicate C c).getD j 0) = C * Real.exp c := by
        rw [List.length_replicate]
        rw [Finset.sum_congr rfl (fun j hj => by
          rw [getD_replicate_of_lt C j c 0 (Finset.mem_range.mp hj)])]
        rw [Finset.sum_const, Finset.card_range, nsmul_eq_mul]
      have hhead : Real.log (∑ j ∈ Finset.range (List.replicate C c).length,
            Real.exp ((List.replicate C c).getD j 0)) - (List.replicate C c).getD a 0
          = Real.log C := by
        rw [hsum, getD_replicate_of_lt C a c 0 ha,
          Real.log_mul (by positivity) (Real.exp_ne_zero c), Real.log_exp]
        ring
      have htail := ih (fun l hli => hl l (List.mem_cons_of_mem a hli))
      simp only [List.length_cons, List.replicate_succ] at *
      unfold sparse_softmax_cross_entropy_with_logits at htail ⊢
      simp only [List.zipWith_cons_cons]
      rw [htail, hhead]

/-- C7: `get_loss_op` is the per-example sparse softmax cross-entropy
reduced by arithmetic mean over the batch; in particular, on a batch of
N ≥ 1 rows of logits that are uniform across all C ≥ 1 classes, with
every label in [0, C), the loss equals ln C. -/
theorem get_loss_op_uniform_logits {I R : Type} (m : Piczak I R)
    (N C : Nat) (c : ℝ) (labels : List Nat)
    (hlen : labels.length = N) (hN : 1 ≤ N) (hC : 1 ≤ C)
    (hl : ∀ l ∈ labels, l < C) :
    m.get_loss_op Real.exp Real.log
        (List.replicate N (List.replicate C c)) labels
      = Real.log ((C : Nat) : ℝ) := by
  subst hlen
  show reduce_mean (sparse_softmax_cross_entropy_with_logits Real.exp Real.log
      labels (List.replicate labels.length (List.replicate C c))) = _
  rw [sparse_ce_uniform_rows C hC c labels hl]
  unfold reduce_mean
  rw [List.sum_replicate, List.length_replicate, nsmul_eq_mul]
  have hne : ((labels.length : ℕ) : ℝ) ≠ 0 := Nat.cast_ne_zero.mpr (by omega)
  exact mul_div_cancel_left₀ _ hne

/-- Witness for C7: one batch element, two classes, uniform logits 0,
label 0; the loss is ln 2. -/
theorem get_loss_op_uniform_logits_witness :
    (([0] : List Nat).length = 1 ∧ 1 ≤ 1 ∧ 1 ≤ 2 ∧ ∀ l ∈ ([0] : List Nat), l < 2) ∧
    somePiczak.get_loss_op Real.exp Real.log
        (List.replicate 1 (List.replicate 2 (0 : ℝ))) [0]
      = Real.log ((2 : Nat) : ℝ) :=
  ⟨⟨rfl, by decide, by decide, by decide⟩,
   get_loss_op_uniform_logits somePiczak 1 2 (0 : ℝ) [0] rfl (by decide)
     (by decide) (by decide)⟩

end PiczakCNN
